import Mathlib

/-!
Shallow embedding of `src/util.py`, a tabular data-quality profiler built on
pandas.  A DataFrame is modelled as a named list of columns given row-wise;
cell values are modelled by the inductive `Value` (pandas `NaN`/`None`/`NaT`
are all `Value.null`, numbers are exact rationals, timestamps are integers in
UTC seconds).  Library behaviour that the repository only calls into
(string-to-date parsing, `float()` parsing, pandas text rendering of tables)
is modelled by explicit parameters or by simple rendering functions, marked
below; no claim depends on the contents of those renderings.
-/

/-- Model of one pandas cell value: missing (`NaN`/`None`/`NaT`), a Python
number (`int`/`float`, modelled exactly as a rational), a Python `str`, a
timezone-aware UTC timestamp (`pd.Timestamp`, in seconds), or a value of any
other runtime type, carrying that type's name. -/
inductive Value where
  | null : Value
  | num : ℚ → Value
  | str : String → Value
  | date : Int → Value
  | other : String → Value
deriving DecidableEq

deriving instance DecidableEq for Except

/-- Model of a pandas DataFrame with a `name` attribute: the declared table
name, the ordered column labels, and the rows (each row lists the cell of
every column, in column order). -/
structure DataFrame where
  dfName : String
  colNames : List String
  rows : List (List Value)
deriving DecidableEq

/-- Row count, `df.shape[0]`. -/
def DataFrame.nrows (df : DataFrame) : Nat := df.rows.length

/-- Column count, `df.shape[1]`. -/
def DataFrame.ncols (df : DataFrame) : Nat := df.colNames.length

/-- The values of the column at position `j` (label access `df[col]` is
modelled positionally; for tables with unique labels this is exactly pandas
label lookup). -/
def colValuesAt (df : DataFrame) (j : Nat) : List Value :=
  df.rows.map (fun r => r.getD j Value.null)

/-- Position of the first column with the given label. -/
def colIndex (df : DataFrame) (name : String) : Option Nat :=
  df.colNames.findIdx? (· = name)

/-- `df[name]` for a label known to occur once: the first matching column. -/
def getCol (df : DataFrame) (name : String) : List Value :=
  match colIndex df name with
  | some j => colValuesAt df j
  | none => []

/-- `series.dropna()`: the non-null values of a list, in order. -/
def dropNulls (vals : List Value) : List Value :=
  vals.filter (fun v => v != Value.null)

/-- `series.isnull().sum()` for the column at position `j`. -/
def nullCountAt (df : DataFrame) (j : Nat) : Nat :=
  (colValuesAt df j).count Value.null

/-- Helper for `duplicated(keep='first')`: marks each element that is equal
to an earlier element of the list (`seen` holds the values met so far). -/
def markDups {α : Type} [DecidableEq α] (seen : List α) : List α → List Bool
  | [] => []
  | x :: xs => if x ∈ seen then true :: markDups seen xs else false :: markDups (x :: seen) xs

/-- `series.duplicated().sum()`: how many elements are repeats of an earlier
element. -/
def dupCountL {α : Type} [DecidableEq α] (l : List α) : Nat :=
  (markDups [] l).count true

/-- `series.unique()` / first-occurrence deduplication, preserving order. -/
def dedupFirstAux {α : Type} [DecidableEq α] (seen : List α) : List α → List α
  | [] => []
  | x :: xs => if x ∈ seen then dedupFirstAux seen xs else x :: dedupFirstAux (x :: seen) xs

/-- First-occurrence deduplication of a list, preserving order. -/
def dedupFirst {α : Type} [DecidableEq α] (l : List α) : List α :=
  dedupFirstAux [] l

/-- Rank used to order values of different runtime types.  pandas raises on
such comparisons; the model totalises the order (nulls sort last, as pandas
sorts `NaN` with `na_position='last'`). -/
def vRank : Value → Nat
  | Value.num _ => 0
  | Value.str _ => 1
  | Value.date _ => 2
  | Value.other _ => 3
  | Value.null => 4

/-- Total order on cell values: payloads compare inside one runtime type,
distinct runtime types compare by `vRank`. -/
def vLe (a b : Value) : Bool :=
  match a, b with
  | Value.num x, Value.num y => decide (x ≤ y)
  | Value.str x, Value.str y => decide (x ≤ y)
  | Value.date x, Value.date y => decide (x ≤ y)
  | Value.other x, Value.other y => decide (x ≤ y)
  | a, b => decide (vRank a ≤ vRank b)

/-- Lexicographic order on full rows, used by `sort_values(by=all columns)`. -/
def rowLe : List Value → List Value → Bool
  | [], _ => true
  | _ :: _, [] => false
  | a :: as, b :: bs => if a = b then rowLe as bs else vLe a b

/-- `df.sort_values(by=df.columns.tolist())`: rows sorted lexicographically by
every column.  (pandas' unstable quicksort and this sort agree up to equal
rows, and equal rows are indistinguishable.) -/
def sortRows (rows : List (List Value)) : List (List Value) :=
  List.insertionSort (fun a b => rowLe a b = true) rows

/-- The report context `{"body": ..., "action_items": ...}`: a dict created in
`print_summary` with exactly these two keys. -/
structure Ctx where
  body : String
  action_items : String
deriving DecidableEq

/-- Appending to one key of the context dict, `context[key] += s`.  A key the
dict does not hold raises `KeyError`, modelled as the error case. -/
def ctxAppend (ctx : Ctx) (key s : String) : Except String Ctx :=
  if key = "body" then Except.ok { ctx with body := ctx.body ++ s }
  else if key = "action_items" then Except.ok { ctx with action_items := ctx.action_items ++ s }
  else Except.error ("KeyError: " ++ key)

theorem ctxAppend_body (ctx : Ctx) (s : String) :
    ctxAppend ctx "body" s = Except.ok { ctx with body := ctx.body ++ s } := by
  simp [ctxAppend]

theorem ctxAppend_action_items (ctx : Ctx) (s : String) :
    ctxAppend ctx "action_items" s =
      Except.ok { ctx with action_items := ctx.action_items ++ s } := by
  simp [ctxAppend]

theorem ctxAppend_action (ctx : Ctx) (s : String) :
    ctxAppend ctx "action" s = Except.error "KeyError: action" := by
  simp [ctxAppend]

/-- Python list repr of a list of strings, as an f-string interpolates it:
`['A', 'B']`. -/
def pyListRepr (l : List String) : String :=
  "[" ++ String.intercalate ", " (l.map (fun s => "'" ++ s ++ "'")) ++ "]"

/-- Python `str()` of a cell value (pandas renders missing values as `nan`,
but every place the repository stringifies a possibly-missing value it maps
missing to the literal `NaN` itself; numeric and timestamp rendering is
modelled simply, no claim depends on it). -/
def renderValue : Value → String
  | Value.null => "NaN"
  | Value.num q => toString q
  | Value.str s => s
  | Value.date t => "timestamp(" ++ toString t ++ ")"
  | Value.other ty => "<" ++ ty ++ ">"

/-- Model of pandas dtype inference for one column: any string or foreign
object makes the column `object`; otherwise timestamps give a datetime dtype,
numbers a numeric dtype, and an empty or all-null column stays `object`.
Only numeric-versus-not is ever branched on by the checks. -/
def inferDtype (vals : List Value) : String :=
  if vals.any (fun v => match v with
      | Value.str _ => true | Value.other _ => true | _ => false) then "object"
  else if vals.any (fun v => match v with | Value.date _ => true | _ => false) then
    "datetime64[ns, UTC]"
  else if vals.any (fun v => match v with | Value.num _ => true | _ => false) then
    "float64"
  else "object"

/-- One row of the `dtype_info` frame `_get_column_data_types` builds:
column name, inferred dtype, null count, distinct non-null count. -/
structure DtypeRow where
  name : String
  dtype : String
  nulls : Nat
  uniques : Nat
deriving DecidableEq

/-- The `dtype_info` row of the column at position `j`. -/
def dtypeRowAt (df : DataFrame) (j : Nat) : DtypeRow :=
  { name := df.colNames.getD j ""
    dtype := inferDtype (colValuesAt df j)
    nulls := nullCountAt df j
    uniques := (dedupFirst (dropNulls (colValuesAt df j))).length }

/-- The unsorted `dtype_info` rows, one per column in column order. -/
def dtypeRowsUnsorted (df : DataFrame) : List DtypeRow :=
  (List.range df.ncols).map (dtypeRowAt df)

def dtype_info_sort (rows : List DtypeRow) : List DtypeRow :=
  List.insertionSort (fun a b => b.nulls ≤ a.nulls) rows

/-- `_get_column_data_types(df)`: per-column dtype, null count and unique
count, sorted descending by null count (`sort_values(by="Null Values",
ascending=False)`; pandas' unstable quicksort is modelled by a stable sort,
which agrees on the multiset of rows). -/
def _get_column_data_types (df : DataFrame) : List DtypeRow :=
  dtype_info_sort (dtypeRowsUnsorted df)

/-- Model of `dtype_info.to_string(index=False)` (pandas text layout is
modelled as a plain space-separated rendering; no claim reads it). -/
def dtypeInfoRender (rows : List DtypeRow) : String :=
  String.intercalate "\n       "
    ("Column Data Type Null Values Unique Values" ::
      rows.map (fun r =>
        r.name ++ " " ++ r.dtype ++ " " ++ toString r.nulls ++ " " ++ toString r.uniques))

/-- Check 1, `get_dataframe_shape`. -/
def get_dataframe_shape (df : DataFrame) (ctx : Ctx) : DataFrame × Except String Ctx :=
  (df, ctxAppend ctx "body"
    ("\n    1. Basic Table Information:\n       - DataFrame has " ++ toString df.nrows ++
      " rows and " ++ toString df.ncols ++ " columns.\n    "))

/-- Python `" " in col`: the name holds a space character anywhere. -/
def hasSpaceChar (c : String) : Bool := c.data.any (fun ch => ch = ' ')

/-- Check 2, `check_column_spaces`. -/
def check_column_spaces (df : DataFrame) (ctx : Ctx) : DataFrame × Except String Ctx :=
  let col_with_spaces := df.colNames.filter hasSpaceChar
  (df,
    if col_with_spaces.isEmpty then
      ctxAppend ctx "body"
        ("\n    2. Column Name Issues:\n       - No column names have extra spaces.\n    ")
    else do
      let ctx ← ctxAppend ctx "action_items"
        ("    - Column name cleanup: Remove leading/trailing spaces in columns, or replace inner spaces with underscores (`_`) in the column " ++
          pyListRepr col_with_spaces ++ ".\n")
      ctxAppend ctx "body"
        ("\n    2. Column Name Issues:\n       - Columns with spaces: " ++
          pyListRepr col_with_spaces ++ "\n    "))

/-- `df.columns[df.columns.duplicated()].tolist()`: the labels marked as
repeats of an earlier label, in order. -/
def duplicatedColumnNames (names : List String) : List String :=
  ((names.zip (markDups [] names)).filter (fun p => p.2)).map (fun p => p.1)

/-- Check 3, `check_duplicate_columns`.  In the duplicate branch the source
writes to `context["action"]`, a key the context dict does not hold. -/
def check_duplicate_columns (df : DataFrame) (ctx : Ctx) : DataFrame × Except String Ctx :=
  let duplicated_columns := duplicatedColumnNames df.colNames
  (df,
    if duplicated_columns.isEmpty then
      ctxAppend ctx "body" ("   - No duplicate column names.\n")
    else do
      let ctx ← ctxAppend ctx "action"
        ("    - Resolve duplicate columns: Consider to rename or remove duplicate column names " ++
          pyListRepr duplicated_columns ++ " to maintain data integrity.\n")
      ctxAppend ctx "body"
        ("   - Duplicate column names found: " ++ pyListRepr duplicated_columns ++ "\n"))

/-- Check 4, `get_column_data_types`. -/
def get_column_data_types (df : DataFrame) (ctx : Ctx) : DataFrame × Except String Ctx :=
  (df, ctxAppend ctx "body"
    ("\n    3. Data Type Overview:\n       " ++
      dtypeInfoRender (_get_column_data_types df) ++ "\n    "))

/-- Table-shape heuristic opening `find_potential_primary_key`: which
identifier column to check and what to call the table. -/
def classifyTable (cols : List String) : Option (List String × String) :=
  if "BARCODE" ∈ cols ∧ "RECEIPT_ID" ∉ cols then some (["BARCODE"], "product")
  else if "RECEIPT_ID" ∈ cols then some (["RECEIPT_ID"], "transaction")
  else if "ID" ∈ cols then some (["ID"], "user")
  else none

/-- The all-columns scan of `find_potential_primary_key`: every column with
no duplicate among its non-null values. -/
def potentialUniqueIds (df : DataFrame) : List String :=
  (List.range df.ncols).filterMap (fun j =>
    if dupCountL (dropNulls (colValuesAt df j)) = 0 then some (df.colNames.getD j "")
    else none)

/-- The `invalid_identifiers` messages of `find_potential_primary_key`. -/
def invalidIdentifiers (df : DataFrame) (identifier_columns : List String)
    (table_name : String) : List String :=
  identifier_columns.foldl (fun acc col =>
    if col ∈ df.colNames then
      let nan_count := (getCol df col).count Value.null
      let duplicate_count := dupCountL (dropNulls (getCol df col))
      let acc := if 0 < nan_count then
        acc ++ [col ++ " in " ++ table_name ++ " table has " ++ toString nan_count ++
          " missing values (NaN)."] else acc
      if 0 < duplicate_count then
        acc ++ [col ++ " in " ++ table_name ++ " table has " ++ toString duplicate_count ++
          " duplicate values (excluding NaN)."] else acc
    else acc) []

/-- Check 5, `find_potential_primary_key`. -/
def find_potential_primary_key (df : DataFrame) (ctx : Ctx) : DataFrame × Except String Ctx :=
  (df,
    match classifyTable df.colNames with
    | none => ctxAppend ctx "body"
        ("\n        4. Potential Unique Identifiers:\n           - No unique identifier columns found in this table.\n        ")
    | some (identifier_columns, table_name) =>
      let invalid_identifiers := invalidIdentifiers df identifier_columns table_name
      let unique_identifiers := potentialUniqueIds df
      let primary_key_check :=
        if unique_identifiers.isEmpty then "No unique and non-null identifier detected."
        else "Potential unique identifier(s): " ++ pyListRepr unique_identifiers ++ "."
      let primary_key_check :=
        if invalid_identifiers.isEmpty then primary_key_check
        else primary_key_check ++ "\n       - Invalid unique identifiers: " ++
          String.intercalate ", " invalid_identifiers
      let afterAction : Except String Ctx :=
        if invalid_identifiers.isEmpty then pure ctx
        else ctxAppend ctx "action_items"
          ("    - Resolve issues with unique identifiers: " ++
            String.intercalate ", " invalid_identifiers ++ "\n")
      do
        let ctx ← afterAction
        ctxAppend ctx "body"
          ("\n    4. Potential Unique Identifiers in " ++ table_name ++
            " table:\n       - " ++ primary_key_check ++ "\n    "))

/-- Python `round(x, 2)` on a percentage (rounding mode modelled by Mathlib's
`round`; only the two-decimal quantisation matters to any claim). -/
def round2 (q : ℚ) : ℚ := ((round (q * 100) : ℤ) : ℚ) / 100

/-- The `(column, null count, percentage)` triples the partially-null branch
of `check_null_columns` lists, in `dtype_info` order. -/
def partialNullDetails (df : DataFrame) : List (String × Nat × ℚ) :=
  ((_get_column_data_types df).filter (fun r => 0 < r.nulls)).map (fun r =>
    (r.name, r.nulls, round2 ((r.nulls : ℚ) / (df.nrows : ℚ) * 100)))

/-- Check 6, `check_null_columns`. -/
def check_null_columns (df : DataFrame) (ctx : Ctx) : DataFrame × Except String Ctx :=
  let dtype_info := _get_column_data_types df
  let rows := df.nrows
  (df,
    if dtype_info.all (fun r => r.nulls = rows) then
      let full_null_cols := (dtype_info.filter (fun r => r.nulls = rows)).map (fun r => r.name)
      do
        let ctx ← ctxAppend ctx "action_items"
          ("    - Handle fully NULL columns: Remove columns " ++
            String.intercalate ", " full_null_cols ++ " that contain only null values.\n")
        ctxAppend ctx "body"
          ("\n    5. Null Column Analysis:\n       - Fully NULL columns: " ++
            String.intercalate ", " full_null_cols ++ ".\n    ")
    else if dtype_info.any (fun r => 0 < r.nulls) then
      let partial_null_details := (partialNullDetails df).map (fun d =>
        d.1 ++ ": " ++ toString d.2.1 ++ " missing (" ++ toString d.2.2 ++ "%)")
      let partial_null_message :=
        "\n          - " ++ String.intercalate "\n          - " partial_null_details
      do
        let ctx ← ctxAppend ctx "action_items"
          ("    - Handle missing data: The following columns contain missing values:" ++
            partial_null_message ++ "\n")
        ctxAppend ctx "body"
          ("\n    5. Null Column Analysis:\n       - Partially NULL columns: " ++
            partial_null_message ++ "\n    ")
    else
      ctxAppend ctx "body"
        ("\n    5. Null Column Analysis:\n       - No NULL columns detected. All columns are fully populated.\n    "))

/-- Model of `frame.to_string(index=False)` for example rows (pandas text
layout modelled as plain space/newline separation; no claim reads it). -/
def rowsRender (rows : List (List Value)) : String :=
  String.intercalate "\n" (rows.map (fun r => String.intercalate " " (r.map renderValue)))

/-- The example rows `check_fully_duplicate_rows` shows:
`df[df.duplicated(keep=False)].sort_values(by=df.columns.tolist()).head(5)`. -/
def duplicateExamples (df : DataFrame) : List (List Value) :=
  (sortRows (df.rows.filter (fun r => 2 ≤ df.rows.count r))).take 5

/-- Check 7, `check_fully_duplicate_rows`. -/
def check_fully_duplicate_rows (df : DataFrame) (ctx : Ctx) : DataFrame × Except String Ctx :=
  let fully_duplicate := dupCountL df.rows
  (df,
    if fully_duplicate = 0 then
      ctxAppend ctx "body"
        ("\n    6. Duplicate Row Analysis:\n       - No fully duplicate rows.\n    ")
    else
      let examplesStr := rowsRender (duplicateExamples df)
      do
        let ctx ← ctxAppend ctx "action_items"
          ("    - Remove duplicate rows: Consider to remove " ++ toString fully_duplicate ++
            " duplicate entries. Example rows: \n" ++ examplesStr ++ "\n")
        ctxAppend ctx "body"
          ("\n    6. Duplicate Row Analysis:\n       - There are " ++ toString fully_duplicate ++
            " duplicate rows. Here are a few examples:\n" ++ examplesStr ++ "\n    "))

/-- Python `float(s)` on a string: a number, or a `ValueError`.  Which strings
parse is a parameter (`pfFloat`), since the checks only branch on whether the
call raises. -/
def pyFloat (pfFloat : String → Option ℚ) (s : String) : Except String ℚ :=
  match pfFloat s with
  | some q => Except.ok q
  | none => Except.error "ValueError"

/-- Python `type(x).__name__` for the modelled runtime values. -/
def runtimeTypeName : Value → String
  | Value.null => "NoneType"
  | Value.num _ => "float"
  | Value.str _ => "str"
  | Value.date _ => "Timestamp"
  | Value.other ty => ty

/-- The per-value classifier `check_column_type` nested in
`check_mixed_data_types`: numbers are `numeric`; strings are tried with
`float()` inside a `try`, where a `ValueError` is caught and yields `string`;
anything else falls back to the runtime type name. -/
def check_column_type (pfFloat : String → Option ℚ) (x : Value) : Except String String :=
  match x with
  | Value.num _ => Except.ok "numeric"
  | Value.str s =>
    match pyFloat pfFloat s with
    | Except.ok _ => Except.ok "numeric"
    | Except.error e => if e = "ValueError" then Except.ok "string" else Except.error e
  | v => Except.ok (runtimeTypeName v)

/-- `series.apply(check_column_type)`: the classifier over a whole column,
propagating any uncaught exception. -/
def applyClassify (pfFloat : String → Option ℚ) : List Value → Except String (List String)
  | [] => Except.ok []
  | v :: vs => do
    let l ← check_column_type pfFloat v
    let ls ← applyClassify pfFloat vs
    pure (l :: ls)

/-- The column loop of `check_mixed_data_types`: every column whose non-null
values classify into more than one label, with its distinct labels in order
of first appearance (`unique()`). -/
def mixedScan (pfFloat : String → Option ℚ) (df : DataFrame) :
    List Nat → Except String (List (String × List String))
  | [] => Except.ok []
  | j :: js => do
    let labels ← applyClassify pfFloat (dropNulls (colValuesAt df j))
    let types_in_col := dedupFirst labels
    let rest ← mixedScan pfFloat df js
    pure (if 1 < types_in_col.length then
      (df.colNames.getD j "", types_in_col) :: rest else rest)

/-- Check 8, `check_mixed_data_types`. -/
def check_mixed_data_types (pfFloat : String → Option ℚ) (df : DataFrame) (ctx : Ctx) :
    DataFrame × Except String Ctx :=
  (df, do
    let mixed ← mixedScan pfFloat df (List.range df.ncols)
    if mixed.isEmpty then
      ctxAppend ctx "body"
        ("\n    7. Mixed Data Type Check (e.g., numbers mixed with text): \n       - No columns have mixed data types.\n    ")
    else
      let mixed_type_cols := mixed.map (fun p => p.1)
      let type_details := String.intercalate "\n          - "
        (mixed.map (fun p => p.1 ++ ": " ++ String.intercalate ", " p.2))
      let ctx ← ctxAppend ctx "action_items"
        ("    - Resolve mixed data type issues: Standardize data types in the following columns: " ++
          pyListRepr mixed_type_cols ++ " to ensure consistency.\n")
      ctxAppend ctx "body"
        ("\n    7. Mixed Data Type Check (e.g., numbers mixed with text): \n       - Columns with mixed data types: " ++
          pyListRepr mixed_type_cols ++
          ".\n       - Different types in these columns:\n          - " ++ type_details ++ "\n    "))

/-- The fixed date-bearing column names of `check_date_validity`. -/
def dateColumns : List String := ["PURCHASE_DATE", "SCAN_DATE", "CREATED_DATE", "BIRTH_DATE"]

/-- `pd.to_datetime(value, utc=True)` on one cell: missing stays missing
(`NaT`), timestamps stay, numbers are read as epoch offsets, strings go
through the date parser (`pfDate`, a parameter: a failed parse raises), and
foreign objects raise. -/
def toDatetime (pfDate : String → Option Int) : Value → Except String Value
  | Value.null => Except.ok Value.null
  | Value.date t => Except.ok (Value.date t)
  | Value.num q => Except.ok (Value.date q.floor)
  | Value.str s =>
    match pfDate s with
    | some t => Except.ok (Value.date t)
    | none => Except.error ("could not parse date: " ++ s)
  | Value.other ty => Except.error ("cannot convert " ++ ty ++ " to datetime")

/-- `pd.to_datetime(df[col], utc=True)` over a whole column. -/
def toDatetimeCol (pfDate : String → Option Int) : List Value → Except String (List Value)
  | [] => Except.ok []
  | v :: vs => do
    let w ← toDatetime pfDate v
    let ws ← toDatetimeCol pfDate vs
    pure (w :: ws)

/-- The filter `df[col] > pd.Timestamp.now(tz='UTC')` on one normalized cell:
strictly later than the check-time instant (`NaT` compares false). -/
def isFutureDate (now : Int) : Value → Bool
  | Value.date t => decide (now < t)
  | _ => false

/-- Overwrite, inside one row, every position whose label equals `name`. -/
def setRowAt : List String → String → List Value → Value → List Value
  | [], _, row, _ => row
  | _ :: _, _, [], _ => []
  | n :: ns, name, x :: xs, v => (if n = name then v else x) :: setRowAt ns name xs v

/-- `df[name] = vals`: write the new column values row by row. -/
def setColRows (names : List String) (name : String) :
    List (List Value) → List Value → List (List Value)
  | [], _ => []
  | rs, [] => rs
  | r :: rs, v :: vs => setRowAt names name r v :: setColRows names name rs vs

/-- `df[name] = vals` on the whole frame. -/
def setCol (df : DataFrame) (name : String) (vals : List Value) : DataFrame :=
  { df with rows := setColRows df.colNames name df.rows vals }

/-- The column loop of `check_date_validity`: normalize each found date
column in place (mutations before a parse failure stick, as in Python), and
collect the per-column future-date messages. -/
def dateLoop (pfDate : String → Option Int) (now : Int) :
    List String → DataFrame → List String → DataFrame × Except String (List String)
  | [], df, invalid => (df, Except.ok invalid)
  | col :: rest, df, invalid =>
    match toDatetimeCol pfDate (getCol df col) with
    | Except.error e => (df, Except.error e)
    | Except.ok norm =>
      let df := setCol df col norm
      let future_dates := dedupFirst (norm.filter (isFutureDate now))
      let invalid := if future_dates.isEmpty then invalid
        else invalid ++ [col ++ " has future dates: " ++
          String.intercalate ", " (future_dates.map renderValue) ++ "."]
      dateLoop pfDate now rest df invalid

/-- Check 9, `check_date_validity`. -/
def check_date_validity (pfDate : String → Option Int) (now : Int) (df : DataFrame)
    (ctx : Ctx) : DataFrame × Except String Ctx :=
  let found_date_columns := dateColumns.filter (fun c => c ∈ df.colNames)
  if found_date_columns.isEmpty then
    (df, ctxAppend ctx "body"
      ("\n    8. Date Validity Check (timestamps are valid): \n       - No date columns in this table.\n    "))
  else
    match dateLoop pfDate now found_date_columns df [] with
    | (df', Except.error e) => (df', Except.error e)
    | (df', Except.ok invalid_dates) =>
      if invalid_dates.isEmpty then
        (df', ctxAppend ctx "body"
          ("\n    8. Date Validity Check (timestamps are valid): \n       - All date columns are valid.\n    "))
      else
        let txt := String.intercalate "\n       - " invalid_dates
        (df', do
          let ctx ← ctxAppend ctx "action_items"
            ("    - Correct invalid dates: Update or remove the following dates to ensure accuracy:\n       - " ++
              txt ++ "\n")
          ctxAppend ctx "body"
            ("\n    8. Date Validity Check (timestamps are valid): \n       - " ++ txt ++ "\n    "))

/-- `.dt.date` of a UTC timestamp: the calendar-day part (whole days since
the epoch). -/
def tsDate (t : Int) : Int := t / 86400

/-- `a.dt.date < b.dt.date` on one pair of normalized cells (`NaT` compares
false, as in pandas). -/
def valueDateLt (a b : Value) : Bool :=
  match a, b with
  | Value.date x, Value.date y => decide (tsDate x < tsDate y)
  | _, _ => false

/-- Check 10, `check_transaction_date_order`. -/
def check_transaction_date_order (df : DataFrame) (ctx : Ctx) :
    DataFrame × Except String Ctx :=
  (df,
    if "SCAN_DATE" ∈ df.colNames ∧ "PURCHASE_DATE" ∈ df.colNames then
      let invalid_count :=
        (((getCol df "SCAN_DATE").zip (getCol df "PURCHASE_DATE")).filter
          (fun p => valueDateLt p.1 p.2)).length
      if invalid_count ≠ 0 then do
        let ctx ← ctxAppend ctx "action_items"
          ("    - Correct date order: 'scan_date' should be after 'purchase_date'. Found invalid entries in " ++
            toString invalid_count ++ " rows.\n")
        ctxAppend ctx "body"
          ("\n    9. Date Order Check (check if receipt scan date is after purchase date):\n       - There are " ++
            toString invalid_count ++ " rows where 'scan_date' is before 'purchase_date'.\n    ")
      else
        ctxAppend ctx "body"
          ("\n    9. Date Order Check (check if receipt scan date is after purchase date):\n       - All 'scan_date' entries are after 'purchase_date'.\n    ")
    else
      ctxAppend ctx "body"
        ("\n    9. Date Order Check (check if receipt scan date is after purchase date):\n       - No related columns found.\n    "))

/-- Check 11, `check_customer_date_order`. -/
def check_customer_date_order (df : DataFrame) (ctx : Ctx) :
    DataFrame × Except String Ctx :=
  (df,
    if "BIRTH_DATE" ∈ df.colNames ∧ "CREATED_DATE" ∈ df.colNames then
      let invalid_count :=
        (((getCol df "CREATED_DATE").zip (getCol df "BIRTH_DATE")).filter
          (fun p => valueDateLt p.1 p.2)).length
      if invalid_count ≠ 0 then do
        let ctx ← ctxAppend ctx "action_items"
          ("    - Correct date order: 'created_date' should be after 'birth_date'. Found invalid entries in " ++
            toString invalid_count ++ " rows.\n")
        ctxAppend ctx "body"
          ("\n    10. Date Order Check (check if customers account created date is after birth date):\n       - There are " ++
            toString invalid_count ++ " rows where 'created_date' is before 'birth_date'.\n    ")
      else
        ctxAppend ctx "body"
          ("\n    10. Date Order Check (check if customers account created date is after birth date):\n       - All 'created_date' entries are after 'birth_date'.\n    ")
    else
      ctxAppend ctx "body"
        ("\n    10. Date Order Check (check if customers account created date is after birth date):\n       - No related columns found.\n    "))

/-- The fixed allow-list of U.S. state abbreviations (50 states + DC + PR). -/
def valid_states : List String :=
  ["AL", "AK", "AZ", "AR", "CA", "CO", "CT", "DC", "DE", "FL", "GA", "HI", "ID",
   "IL", "IN", "IA", "KS", "KY", "LA", "ME", "MD", "MA", "MI", "MN", "MS", "MO",
   "MT", "NE", "NV", "NH", "NJ", "NM", "NY", "NC", "ND", "OH", "OK", "OR", "PA",
   "PR", "RI", "SC", "SD", "TN", "TX", "UT", "VT", "VA", "WA", "WV", "WI", "WY"]

/-- The fixed allow-list of language tags. -/
def valid_languages : List String :=
  ["en", "es-419", "fr", "de", "it", "pt", "zh", "ja", "ko", "ar", "ru", "hi",
   "en-US", "en-GB"]

/-- The fixed allow-list of gender labels. -/
def valid_genders : List String :=
  ["female", "male", "non_binary", "transgender", "prefer_not_to_say",
   "not_listed", "unknown"]

/-- `series.isin(allow)` on one cell: true only for a string of the list
(missing values and non-strings are not in a list of strings). -/
def isinStr (v : Value) (allow : List String) : Bool :=
  match v with
  | Value.str s => s ∈ allow
  | _ => false

/-- The distinct offending values of one categorical column, rendered as the
source renders them (`str(x)` with missing mapped to the literal `NaN`). -/
def invalidValuesOf (df : DataFrame) (col : String) (allow : List String) : List String :=
  (dedupFirst ((getCol df col).filter (fun v => !(isinStr v allow)))).map renderValue

/-- Conditionally append to one context key (the `if ...:` guarded appends of
`check_data_consistency`). -/
def appendIf (ctx : Ctx) (cond : Bool) (key s : String) : Except String Ctx :=
  if cond then ctxAppend ctx key s else pure ctx

/-- Check 12, `check_data_consistency`. -/
def check_data_consistency (df : DataFrame) (ctx : Ctx) : DataFrame × Except String Ctx :=
  (df,
    if "STATE" ∈ df.colNames ∧ "LANGUAGE" ∈ df.colNames ∧ "GENDER" ∈ df.colNames then
      let invalid_states := invalidValuesOf df "STATE" valid_states
      let invalid_languages := invalidValuesOf df "LANGUAGE" valid_languages
      let invalid_genders := invalidValuesOf df "GENDER" valid_genders
      do
        let ctx ← ctxAppend ctx "body"
          ("\n    11. Data Consistency Check (check if STATE, LANGUAGE, and GENDER are consistent):\n    ")
        let ctx ← appendIf ctx (!invalid_states.isEmpty) "body"
          ("     - Invalid states detected: " ++ String.intercalate ", " invalid_states ++ "\n")
        let ctx ← appendIf ctx (!invalid_states.isEmpty) "action_items"
          ("    - Resolve invalid states: Correct the following invalid states: " ++
            String.intercalate ", " invalid_states ++ ".\n")
        let ctx ← appendIf ctx (!invalid_languages.isEmpty) "body"
          ("         - Invalid languages detected: " ++
            String.intercalate ", " invalid_languages ++ "\n")
        let ctx ← appendIf ctx (!invalid_languages.isEmpty) "action_items"
          ("    - Resolve invalid languages: Correct the following invalid languages: " ++
            String.intercalate ", " invalid_languages ++ ".\n")
        let ctx ← appendIf ctx (!invalid_genders.isEmpty) "body"
          ("         - Invalid gender values detected: " ++
            String.intercalate ", " invalid_genders ++ "\n")
        appendIf ctx (!invalid_genders.isEmpty) "action_items"
          ("    - Resolve invalid gender values: Address the following invalid gender values: " ++
            String.intercalate ", " invalid_genders ++ ".\n")
    else
      ctxAppend ctx "body"
        ("\n    11. Data Consistency Check (check if STATE, LANGUAGE, and GENDER are consistent):\n       - No related columns found.\n    "))

/-- `df.select_dtypes(include=[np.number])`: positions of the numeric
columns. -/
def numericColIdxs (df : DataFrame) : List Nat :=
  (List.range df.ncols).filter (fun j => inferDtype (colValuesAt df j) = "float64")

/-- Model of `df.describe(include=[np.number]).to_string(index=True)`
(statistics rendering is modelled by its column list; no claim reads it). -/
def describeRender (df : DataFrame) : String :=
  "count mean std min 25% 50% 75% max of " ++
    String.intercalate ", " ((numericColIdxs df).map (fun j => df.colNames.getD j ""))

/-- Check 13, `describe_data`. -/
def describe_data (df : DataFrame) (ctx : Ctx) : DataFrame × Except String Ctx :=
  (df,
    if (numericColIdxs df).isEmpty then
      ctxAppend ctx "body"
        ("\n    12. Summary Statistics:\n       - No numeric columns found.\n        ")
    else
      ctxAppend ctx "body"
        ("\n    12. Summary Statistics:\n       " ++ describeRender df ++ "\n    "))

/-- The fixed ordered tuple `TABLE_CHECK_STEPS` of `print_summary`. -/
def TABLE_CHECK_STEPS (pfFloat : String → Option ℚ) (pfDate : String → Option Int)
    (now : Int) : List (DataFrame → Ctx → DataFrame × Except String Ctx) :=
  [get_dataframe_shape,
   check_column_spaces,
   check_duplicate_columns,
   get_column_data_types,
   find_potential_primary_key,
   check_null_columns,
   check_fully_duplicate_rows,
   check_mixed_data_types pfFloat,
   check_date_validity pfDate now,
   check_transaction_date_order,
   check_customer_date_order,
   check_data_consistency,
   describe_data]

/-- `for step in TABLE_CHECK_STEPS: step(df, context)`: run the checks in
order; an exception aborts the run, keeping the in-place mutations made so
far. -/
def runSteps : List (DataFrame → Ctx → DataFrame × Except String Ctx) →
    DataFrame → Ctx → DataFrame × Except String Ctx
  | [], df, ctx => (df, Except.ok ctx)
  | step :: rest, df, ctx =>
    match step df ctx with
    | (df', Except.ok ctx') => runSteps rest df' ctx'
    | (df', Except.error e) => (df', Except.error e)

/-- The fresh context `print_summary` builds (the seed of `body` keeps the
source's wording, "for of" included). -/
def initialCtx (df : DataFrame) : Ctx :=
  { body := "Here is the result of the initial data check for of table '" ++
      df.dfName ++ "':\n"
    action_items := "Action required:\n" }

/-- `print_summary(df)`: run the thirteen checks over a fresh context and
render the final report, body then action items.  The first component is the
caller's table as the run leaves it (Python mutates it in place); the second
is the returned report, or the exception that aborted the run. -/
def print_summary (pfFloat : String → Option ℚ) (pfDate : String → Option Int)
    (now : Int) (df : DataFrame) : DataFrame × Except String String :=
  match runSteps (TABLE_CHECK_STEPS pfFloat pfDate now) df (initialCtx df) with
  | (df', Except.ok ctx) =>
    (df', Except.ok ("\n    " ++ ctx.body ++ "\n    \n\n    " ++ ctx.action_items ++ "\n    "))
  | (df', Except.error e) => (df', Except.error e)

/-! ## Claim C6: primary-key heuristic precedence -/

/-- The heuristic as the claim orders it: `RECEIPT_ID` wins (transaction)
even when `BARCODE` or `ID` is also present; then `BARCODE` without
`RECEIPT_ID` (product); then `ID` (user); else nothing. -/
def classifySpecOrder (cols : List String) : Option (List String × String) :=
  if "RECEIPT_ID" ∈ cols then some (["RECEIPT_ID"], "transaction")
  else if "BARCODE" ∈ cols then some (["BARCODE"], "product")
  else if "ID" ∈ cols then some (["ID"], "user")
  else none

/-- C6: the table classification of `find_potential_primary_key` resolves in
the claim's precedence order: `RECEIPT_ID` present gives "transaction"
checking `RECEIPT_ID` (whatever else is present), else `BARCODE` gives
"product", else `ID` gives "user", else no identifier column is selected. -/
theorem c6_primary_key_precedence (cols : List String) :
    classifyTable cols = classifySpecOrder cols := by
  unfold classifyTable classifySpecOrder
  by_cases h1 : "RECEIPT_ID" ∈ cols <;> by_cases h2 : "BARCODE" ∈ cols <;> simp [h1, h2]

/-! ## Claim C7: strictly-exclusive future-date boundary -/

/-- C7: the date-validity check flags a normalized value exactly when it is
strictly later than the check-time instant: a value equal to `now` is never
flagged, a value one second later always is, and the per-column future list
built by `dateLoop` keeps a value exactly under the same strict bound. -/
theorem c7_future_date_boundary (now t : Int) :
    (isFutureDate now (Value.date t) = true ↔ now < t) ∧
    isFutureDate now (Value.date now) = false ∧
    isFutureDate now (Value.date (now + 1)) = true ∧
    dedupFirst ([Value.date t].filter (isFutureDate now)) =
      (if now < t then [Value.date t] else []) := by
  refine ⟨?_, ?_, ?_, ?_⟩
  · simp [isFutureDate]
  · simp [isFutureDate]
  · simp [isFutureDate]
  · by_cases h : now < t <;> simp [isFutureDate, h, dedupFirst, dedupFirstAux]

/-! ## Claim C9: the per-value classifier is total -/

/-- The classification result as the spec words it: `numeric` for numbers and
number-parseable strings, `string` for other strings, and for any other value
the label derived from the value's runtime type name. -/
def classifierSpecLabel (pfFloat : String → Option ℚ) : Value → String
  | Value.num _ => "numeric"
  | Value.str s => if (pfFloat s).isSome then "numeric" else "string"
  | v => runtimeTypeName v

/-- C9: for every float-parsing behaviour and every input value the
classifier returns a label and never propagates an exception, and the label
is the one the spec describes (numbers and parseable strings are `numeric`,
other strings `string`, anything else its runtime type name). -/
theorem c9_classifier_total (pfFloat : String → Option ℚ) (v : Value) :
    check_column_type pfFloat v = Except.ok (classifierSpecLabel pfFloat v) := by
  cases v with
  | str s => cases h : pfFloat s <;>
      simp [check_column_type, pyFloat, classifierSpecLabel, h]
  | null => rfl
  | num q => rfl
  | date t => rfl
  | other ty => rfl

/-! ## Claim C2: duplicate column names crash the run (code bug) -/

/-- A table whose column list holds the name `A` twice. -/
def dupColsDf : DataFrame :=
  { dfName := "dup", colNames := ["A", "A"], rows := [[Value.num 1, Value.num 2]] }

/-- C2 (code bug): on a table with a duplicated column name the
duplicate-columns check writes to `context["action"]`, a key the context dict
does not hold, so the check raises `KeyError` and the whole pipeline run
aborts instead of appending a remediation action to `action_items`. -/
theorem c2_duplicate_columns_keyerror :
    (check_duplicate_columns dupColsDf (initialCtx dupColsDf)).2 =
      Except.error "KeyError: action" ∧
    (print_summary (fun _ => none) (fun _ => none) 0 dupColsDf).2 =
      Except.error "KeyError: action" := by
  exact ⟨by decide, by decide⟩

/-! ## Claim C4: categorical consistency is all-or-nothing -/

/-- C4: whenever at least one of `STATE`, `LANGUAGE`, `GENDER` is absent,
`check_data_consistency` only appends the "No related columns found" finding
to the body — the table and the action items are untouched and no column is
validated. -/
theorem c4_consistency_all_or_nothing (df : DataFrame) (ctx : Ctx)
    (h : ¬("STATE" ∈ df.colNames ∧ "LANGUAGE" ∈ df.colNames ∧ "GENDER" ∈ df.colNames)) :
    check_data_consistency df ctx =
      (df, Except.ok { ctx with body := ctx.body ++
        "\n    11. Data Consistency Check (check if STATE, LANGUAGE, and GENDER are consistent):\n       - No related columns found.\n    " }) := by
  simp [check_data_consistency, h, ctxAppend_body]

/-- A table with `STATE` and `GENDER` but no `LANGUAGE`, both fully valid. -/
def stateGenderDf : DataFrame :=
  { dfName := "u", colNames := ["STATE", "GENDER"],
    rows := [[Value.str "CA", Value.str "female"]] }

/-- Witness for C4 at a concrete table: two of the three columns present and
valid still yield only the "No related columns found" finding. -/
theorem c4_witness :
    check_data_consistency stateGenderDf (initialCtx stateGenderDf) =
      (stateGenderDf, Except.ok { initialCtx stateGenderDf with
        body := (initialCtx stateGenderDf).body ++
          "\n    11. Data Consistency Check (check if STATE, LANGUAGE, and GENDER are consistent):\n       - No related columns found.\n    " }) :=
  c4_consistency_all_or_nothing stateGenderDf (initialCtx stateGenderDf) (by decide)

/-! ## Claim C10: null-only columns count as potential unique identifiers -/

theorem map_getD_range {α : Type} (l : List α) (d : α) :
    (List.range l.length).map (fun j => l.getD j d) = l := by
  induction l with
  | nil => simp
  | cons x xs ih =>
    rw [List.length_cons, List.range_succ_eq_map, List.map_cons, List.map_map]
    have h2 : ((fun j => (x :: xs).getD j d) ∘ Nat.succ) = (fun j => xs.getD j d) := by
      funext k
      simp [List.getD]
    rw [h2, ih]
    simp [List.getD]

/-- C10: the all-columns scan of `find_potential_primary_key` counts
duplicates only over non-null entries, so when the heuristic selects an
identifier column, a column whose values are all null is listed among the
potential unique identifiers, and on a zero-row table every column is. -/
theorem c10_allnull_potential_unique (df : DataFrame) (j : Nat)
    (_hsel : classifyTable df.colNames ≠ none) (hj : j < df.ncols)
    (hnull : ∀ v ∈ colValuesAt df j, v = Value.null) :
    df.colNames.getD j "" ∈ potentialUniqueIds df ∧
    (df.rows = [] → potentialUniqueIds df = df.colNames) := by
  have hdrop : dropNulls (colValuesAt df j) = [] := by
    unfold dropNulls
    rw [List.filter_eq_nil_iff]
    intro v hv
    simp [hnull v hv]
  constructor
  · unfold potentialUniqueIds
    refine List.mem_filterMap.mpr ⟨j, List.mem_range.mpr hj, ?_⟩
    rw [hdrop]
    simp [dupCountL, markDups]
  · intro hrows
    unfold potentialUniqueIds
    have hcv : ∀ k, colValuesAt df k = [] := by
      intro k
      simp [colValuesAt, hrows]
    have : ∀ k ∈ List.range df.ncols,
        (if dupCountL (dropNulls (colValuesAt df k)) = 0 then
          some (df.colNames.getD k "") else none) = some (df.colNames.getD k "") := by
      intro k _
      simp [hcv k, dropNulls, dupCountL, markDups]
    rw [List.filterMap_congr this]
    rw [show (fun k => some (df.colNames.getD k "")) =
      some ∘ (fun k => df.colNames.getD k "") from rfl]
    rw [List.filterMap_eq_map]
    simpa [DataFrame.ncols] using map_getD_range df.colNames ""

/-- A zero-selected shape: transaction table with an all-null extra column. -/
def allNullColDf : DataFrame :=
  { dfName := "t", colNames := ["RECEIPT_ID", "EMPTY"],
    rows := [[Value.num 1, Value.null], [Value.num 2, Value.null]] }

/-- Witness for C10 at a concrete table: the all-null column `EMPTY` is
listed among the potential unique identifiers. -/
theorem c10_witness :
    "EMPTY" ∈ potentialUniqueIds allNullColDf ∧
    (allNullColDf.rows = [] → potentialUniqueIds allNullColDf = allNullColDf.colNames) :=
  c10_allnull_potential_unique allNullColDf 1 (by decide) (by decide) (by decide)

/-! ## Claim C8: only the four date columns may be rewritten -/

/-- The pipeline's frame relation: the table keeps its name, labels and row
count, and every cell in a column whose label is not one of the four
date-bearing names keeps its value. -/
def OnlyDateColsChanged (df df' : DataFrame) : Prop :=
  df'.dfName = df.dfName ∧ df'.colNames = df.colNames ∧
  df'.rows.length = df.rows.length ∧
  ∀ i j, df.colNames.getD j "" ∉ dateColumns →
    (df'.rows.getD i []).getD j Value.null = (df.rows.getD i []).getD j Value.null

theorem onlyDateColsChanged_refl (df : DataFrame) : OnlyDateColsChanged df df :=
  ⟨rfl, rfl, rfl, fun _ _ _ => rfl⟩

theorem onlyDateColsChanged_trans {a b c : DataFrame}
    (h1 : OnlyDateColsChanged a b) (h2 : OnlyDateColsChanged b c) :
    OnlyDateColsChanged a c := by
  obtain ⟨n1, c1, l1, e1⟩ := h1
  obtain ⟨n2, c2, l2, e2⟩ := h2
  refine ⟨n2.trans n1, c2.trans c1, l2.trans l1, ?_⟩
  intro i j hj
  rw [e2 i j (by rw [c1]; exact hj), e1 i j hj]

theorem setRowAt_getD (names : List String) (name : String) (row : List Value)
    (v : Value) (j : Nat) (h : names.getD j "" ≠ name) :
    (setRowAt names name row v).getD j Value.null = row.getD j Value.null := by
  induction names generalizing row j with
  | nil => rfl
  | cons n ns ih =>
    cases row with
    | nil => rfl
    | cons x xs =>
      cases j with
      | zero =>
        have hn : n ≠ name := by simpa [List.getD] using h
        simp [setRowAt, hn, List.getD]
      | succ k =>
        have hk : ns.getD k "" ≠ name := by simpa [List.getD] using h
        simpa [setRowAt, List.getD] using ih xs k hk

theorem setColRows_getD (names : List String) (name : String)
    (rows : List (List Value)) (vals : List Value) (i j : Nat)
    (h : names.getD j "" ≠ name) :
    ((setColRows names name rows vals).getD i []).getD j Value.null =
      ((rows.getD i []).getD j Value.null) := by
  induction rows generalizing vals i with
  | nil => simp [setColRows]
  | cons r rs ih =>
    cases vals with
    | nil => rfl
    | cons v vs =>
      cases i with
      | zero => simpa [setColRows, List.getD] using setRowAt_getD names name r v j h
      | succ k => simpa [setColRows, List.getD] using ih vs k

theorem setColRows_length (names : List String) (name : String)
    (rows : List (List Value)) (vals : List Value) :
    (setColRows names name rows vals).length = rows.length := by
  induction rows generalizing vals with
  | nil => simp [setColRows]
  | cons r rs ih =>
    cases vals with
    | nil => rfl
    | cons v vs => simpa [setColRows] using ih vs

theorem setCol_onlyDateCols (df : DataFrame) (name : String) (vals : List Value)
    (hname : name ∈ dateColumns) :
    OnlyDateColsChanged df (setCol df name vals) := by
  refine ⟨rfl, rfl, setColRows_length _ _ _ _, ?_⟩
  intro i j hj
  have hne : df.colNames.getD j "" ≠ name := fun he => hj (he ▸ hname)
  exact setColRows_getD df.colNames name df.rows vals i j hne

theorem dateLoop_onlyDateCols (pfDate : String → Option Int) (now : Int)
    (cols : List String) (df : DataFrame) (inv : List String)
    (hcols : ∀ c ∈ cols, c ∈ dateColumns) :
    OnlyDateColsChanged df (dateLoop pfDate now cols df inv).1 := by
  induction cols generalizing df inv with
  | nil => exact onlyDateColsChanged_refl df
  | cons col rest ih =>
    have hcol : col ∈ dateColumns := hcols col (List.mem_cons_self _ _)
    have hrest : ∀ c ∈ rest, c ∈ dateColumns := fun c hc =>
      hcols c (List.mem_cons_of_mem _ hc)
    unfold dateLoop
    cases htd : toDatetimeCol pfDate (getCol df col) with
    | error e => exact onlyDateColsChanged_refl df
    | ok norm =>
      exact onlyDateColsChanged_trans (setCol_onlyDateCols df col norm hcol)
        (ih (setCol df col norm) _ hrest)

theorem check_date_validity_onlyDateCols (pfDate : String → Option Int) (now : Int)
    (df : DataFrame) (ctx : Ctx) :
    OnlyDateColsChanged df (check_date_validity pfDate now df ctx).1 := by
  unfold check_date_validity
  by_cases hf : (dateColumns.filter (fun c => c ∈ df.colNames)).isEmpty
  · simp only [hf, if_true]
    exact onlyDateColsChanged_refl df
  · simp only [hf, if_false]
    have hsub : ∀ c ∈ dateColumns.filter (fun c => c ∈ df.colNames), c ∈ dateColumns := by
      intro c hc
      exact (List.mem_filter.mp hc).1
    have hdl := dateLoop_onlyDateCols pfDate now
      (dateColumns.filter (fun c => c ∈ df.colNames)) df [] hsub
    rcases hres : dateLoop pfDate now (dateColumns.filter (fun c => c ∈ df.colNames)) df []
      with ⟨df', res⟩
    rw [hres] at hdl
    cases res with
    | error e => exact hdl
    | ok invalid_dates =>
      by_cases hinv : invalid_dates.isEmpty <;> simp [hinv] <;> exact hdl

/-- Every check of the pipeline satisfies the frame relation on the table. -/
theorem steps_onlyDateCols (pfFloat : String → Option ℚ) (pfDate : String → Option Int)
    (now : Int) :
    ∀ step ∈ TABLE_CHECK_STEPS pfFloat pfDate now, ∀ df ctx,
      OnlyDateColsChanged df (step df ctx).1 := by
  intro step hstep df ctx
  simp only [TABLE_CHECK_STEPS, List.mem_cons, List.not_mem_nil, or_false] at hstep
  rcases hstep with h | h | h | h | h | h | h | h | h | h | h | h | h <;> subst h
  · exact onlyDateColsChanged_refl df
  · exact onlyDateColsChanged_refl df
  · exact onlyDateColsChanged_refl df
  · exact onlyDateColsChanged_refl df
  · exact onlyDateColsChanged_refl df
  · exact onlyDateColsChanged_refl df
  · exact onlyDateColsChanged_refl df
  · exact onlyDateColsChanged_refl df
  · exact check_date_validity_onlyDateCols pfDate now df ctx
  · exact onlyDateColsChanged_refl df
  · exact onlyDateColsChanged_refl df
  · exact onlyDateColsChanged_refl df
  · exact onlyDateColsChanged_refl df

theorem runSteps_onlyDateCols
    (steps : List (DataFrame → Ctx → DataFrame × Except String Ctx))
    (hsteps : ∀ step ∈ steps, ∀ df ctx, OnlyDateColsChanged df (step df ctx).1)
    (df : DataFrame) (ctx : Ctx) :
    OnlyDateColsChanged df (runSteps steps df ctx).1 := by
  induction steps generalizing df ctx with
  | nil => exact onlyDateColsChanged_refl df
  | cons step rest ih =>
    have hstep := hsteps step (List.mem_cons_self _ _) df ctx
    have hrest : ∀ s ∈ rest, ∀ df ctx, OnlyDateColsChanged df (s df ctx).1 :=
      fun s hs => hsteps s (List.mem_cons_of_mem _ hs)
    unfold runSteps
    rcases hres : step df ctx with ⟨df', res⟩
    rw [hres] at hstep
    cases res with
    | error e => exact hstep
    | ok ctx' => exact onlyDateColsChanged_trans hstep (ih hrest df' ctx')

theorem print_summary_fst (pfFloat : String → Option ℚ) (pfDate : String → Option Int)
    (now : Int) (df : DataFrame) :
    (print_summary pfFloat pfDate now df).1 =
      (runSteps (TABLE_CHECK_STEPS pfFloat pfDate now) df (initialCtx df)).1 := by
  unfold print_summary
  rcases hres : runSteps (TABLE_CHECK_STEPS pfFloat pfDate now) df (initialCtx df)
    with ⟨df', res⟩
  cases res <;> rfl

/-- C8: a whole pipeline run keeps the table's name, labels and row count,
and every cell of every column not named `PURCHASE_DATE`, `SCAN_DATE`,
`CREATED_DATE` or `BIRTH_DATE` is left unchanged — whether the run completes
or aborts. -/
theorem c8_frame_only_date_columns (pfFloat : String → Option ℚ)
    (pfDate : String → Option Int) (now : Int) (df : DataFrame) (i j : Nat)
    (h : df.colNames.getD j "" ∉ dateColumns) :
    (print_summary pfFloat pfDate now df).1.dfName = df.dfName ∧
    (print_summary pfFloat pfDate now df).1.colNames = df.colNames ∧
    (print_summary pfFloat pfDate now df).1.rows.length = df.rows.length ∧
    ((print_summary pfFloat pfDate now df).1.rows.getD i []).getD j Value.null =
      (df.rows.getD i []).getD j Value.null := by
  rw [print_summary_fst]
  have hrun := runSteps_onlyDateCols (TABLE_CHECK_STEPS pfFloat pfDate now)
    (steps_onlyDateCols pfFloat pfDate now) df (initialCtx df)
  obtain ⟨hn, hc, hl, he⟩ := hrun
  exact ⟨hn, hc, hl, he i j h⟩

/-- A table with one date column and one unrelated column. -/
def frameDf : DataFrame :=
  { dfName := "w", colNames := ["SCAN_DATE", "X"],
    rows := [[Value.date 5, Value.num 7]] }

/-- Witness for C8 at a concrete table: after the whole run, the cell of the
non-date column `X` is unchanged. -/
theorem c8_witness :
    (print_summary (fun _ => none) (fun _ => none) 0 frameDf).1.dfName = frameDf.dfName ∧
    (print_summary (fun _ => none) (fun _ => none) 0 frameDf).1.colNames = frameDf.colNames ∧
    (print_summary (fun _ => none) (fun _ => none) 0 frameDf).1.rows.length =
      frameDf.rows.length ∧
    ((print_summary (fun _ => none) (fun _ => none) 0 frameDf).1.rows.getD 0 []).getD 1
        Value.null =
      (frameDf.rows.getD 0 []).getD 1 Value.null :=
  c8_frame_only_date_columns (fun _ => none) (fun _ => none) 0 frameDf 0 1 (by decide)

/-! ## Claim C1: full-row duplicate count and examples -/

theorem markDups_count_add {α : Type} [DecidableEq α] (seen : List α) (l : List α) :
    (markDups seen l).count true + (dedupFirstAux seen l).length = l.length := by
  induction l generalizing seen with
  | nil => rfl
  | cons x xs ih =>
    by_cases hx : x ∈ seen
    · have h := ih seen
      simp only [markDups, dedupFirstAux, if_pos hx, List.count_cons_self, List.length_cons]
      omega
    · have h := ih (x :: seen)
      simp only [markDups, dedupFirstAux, if_neg hx, List.length_cons]
      rw [List.count_cons_of_ne (by decide)]
      omega

/-- The reported duplicate count plus the number of distinct row values is
the row count: `duplicated()` marks every repeat of an earlier row. -/
theorem dupCountL_add_dedup {α : Type} [DecidableEq α] (l : List α) :
    dupCountL l + (dedupFirst l).length = l.length :=
  markDups_count_add [] l

theorem vLe_total (a b : Value) : vLe a b = true ∨ vLe b a = true := by
  cases a <;> cases b <;>
    simp only [vLe, vRank, decide_eq_true_eq] <;>
    exact le_total _ _

theorem vLe_trans {a b c : Value} (h1 : vLe a b = true) (h2 : vLe b c = true) :
    vLe a c = true := by
  cases a <;> cases b <;> cases c <;>
    simp only [vLe, vRank, decide_eq_true_eq] at h1 h2 ⊢ <;>
    first
      | exact le_trans h1 h2
      | omega

theorem vLe_antisymm {a b : Value} (h1 : vLe a b = true) (h2 : vLe b a = true) :
    a = b := by
  cases a <;> cases b <;>
    simp only [vLe, vRank, decide_eq_true_eq] at h1 h2 ⊢ <;>
    first
      | rfl
      | exact congrArg _ (le_antisymm h1 h2)
      | omega

theorem rowLe_total (x y : List Value) : rowLe x y = true ∨ rowLe y x = true := by
  induction x generalizing y with
  | nil => left; rfl
  | cons a as ih =>
    cases y with
    | nil => right; rfl
    | cons b bs =>
      by_cases hab : a = b
      · subst hab
        simpa [rowLe] using ih bs
      · have hba : b ≠ a := fun h => hab h.symm
        simpa [rowLe, hab, hba] using vLe_total a b

theorem rowLe_trans {x y z : List Value} (h1 : rowLe x y = true)
    (h2 : rowLe y z = true) : rowLe x z = true := by
  induction x generalizing y z with
  | nil => rfl
  | cons a as ih =>
    cases y with
    | nil => simp [rowLe] at h1
    | cons b bs =>
      cases z with
      | nil => simp [rowLe] at h2
      | cons c cs =>
        by_cases hab : a = b <;> by_cases hbc : b = c
        · subst hab; subst hbc
          simp only [rowLe, if_pos rfl] at h1 h2 ⊢
          exact ih h1 h2
        · subst hab
          simp only [rowLe, if_pos rfl, if_neg hbc] at h2 ⊢
          exact h2
        · subst hbc
          simp only [rowLe, if_pos rfl, if_neg hab] at h1 ⊢
          exact h1
        · simp only [rowLe, if_neg hab, if_neg hbc] at h1 h2
          by_cases hac : a = c
          · subst hac
            exact absurd (vLe_antisymm h1 h2) hab
          · simp only [rowLe, if_neg hac]
            exact vLe_trans h1 h2

/-- The example rows are sorted under the full-row lexicographic order. -/
theorem sortRows_sorted (rows : List (List Value)) :
    List.Pairwise (fun a b => rowLe a b = true) (sortRows rows) := by
  letI : IsTotal (List Value) (fun a b => rowLe a b = true) := ⟨rowLe_total⟩
  letI : IsTrans (List Value) (fun a b => rowLe a b = true) :=
    ⟨fun _ _ _ => rowLe_trans⟩
  exact List.sorted_insertionSort _ rows

theorem sortRows_mem {r : List Value} {rows : List (List Value)}
    (h : r ∈ sortRows rows) : r ∈ rows :=
  (List.perm_insertionSort _ rows).subset h

/-- A table whose two rows are identical. -/
def dupRowsDf : DataFrame :=
  { dfName := "r", colNames := ["A"], rows := [[Value.num 1], [Value.num 1]] }

/-- C1 counterexample: on a table of two identical rows the check reports 1
duplicate row, while 2 rows are identical to at least one other row — the
claimed equality fails (pandas `duplicated()` keeps the first occurrence
unmarked). -/
theorem c1_counterexample :
    dupCountL dupRowsDf.rows = 1 ∧
    (dupRowsDf.rows.filter (fun r => 2 ≤ dupRowsDf.rows.count r)).length = 2 ∧
    (1 : Nat) ≠ 2 := by
  refine ⟨by decide, by decide, by decide⟩

/-- C1 (amended): the reported duplicate-row count equals the number of rows
in excess of the distinct row values (each row identical to an earlier one,
first occurrences unmarked), and every example row shown (at most 5) is a
member of some duplicate group, with examples sorted by full-row value. -/
theorem c1_duplicate_rows_amended (df : DataFrame) :
    dupCountL df.rows + (dedupFirst df.rows).length = df.rows.length ∧
    (duplicateExamples df).length ≤ 5 ∧
    (∀ r ∈ duplicateExamples df, 2 ≤ df.rows.count r) ∧
    List.Pairwise (fun a b => rowLe a b = true) (duplicateExamples df) := by
  refine ⟨dupCountL_add_dedup df.rows, List.length_take_le 5 _, ?_, ?_⟩
  · intro r hr
    have h1 : r ∈ sortRows (df.rows.filter (fun r => 2 ≤ df.rows.count r)) :=
      List.take_subset 5 _ hr
    have h2 := sortRows_mem h1
    have h3 := List.of_mem_filter h2
    simpa using h3
  · exact (sortRows_sorted _).sublist (List.take_sublist 5 _)

/-! ## Claim C5: null-column analysis is a three-way exclusive split -/

theorem mem_get_column_data_types (df : DataFrame) (r : DtypeRow) :
    r ∈ _get_column_data_types df ↔ ∃ j < df.ncols, dtypeRowAt df j = r := by
  unfold _get_column_data_types dtype_info_sort
  rw [(List.perm_insertionSort _ _).mem_iff]
  unfold dtypeRowsUnsorted
  simp [List.mem_map, List.mem_range]

theorem all_get_column_data_types (df : DataFrame) (p : DtypeRow → Bool) :
    (_get_column_data_types df).all p = true ↔
      ∀ j < df.ncols, p (dtypeRowAt df j) = true := by
  rw [List.all_eq_true]
  constructor
  · intro h j hj
    exact h _ ((mem_get_column_data_types df _).mpr ⟨j, hj, rfl⟩)
  · intro h r hr
    obtain ⟨j, hj, hje⟩ := (mem_get_column_data_types df r).mp hr
    exact hje ▸ h j hj

theorem any_get_column_data_types (df : DataFrame) (p : DtypeRow → Bool) :
    (_get_column_data_types df).any p = true ↔
      ∃ j < df.ncols, p (dtypeRowAt df j) = true := by
  rw [List.any_eq_true]
  constructor
  · intro ⟨r, hr, hp⟩
    obtain ⟨j, hj, hje⟩ := (mem_get_column_data_types df r).mp hr
    exact ⟨j, hj, hje ▸ hp⟩
  · intro ⟨j, hj, hp⟩
    exact ⟨dtypeRowAt df j, (mem_get_column_data_types df _).mpr ⟨j, hj, rfl⟩, hp⟩

theorem nullCountAt_eq_zero_iff (df : DataFrame) (j : Nat) :
    nullCountAt df j = 0 ↔ ∀ v ∈ colValuesAt df j, v ≠ Value.null := by
  unfold nullCountAt
  rw [List.count_eq_zero]
  constructor
  · intro h v hv he
    exact h (he ▸ hv)
  · intro h hn
    exact h _ hn rfl

theorem ok_bind {ε α β : Type} (a : α) (f : α → Except ε β) :
    (Except.ok a : Except ε α) >>= f = f a := rfl

theorem string_append3_ne_empty (p x q : String) (hp : p.length ≠ 0) :
    (p ++ x) ++ q ≠ "" := by
  intro h
  have hl := congrArg String.length h
  simp only [String.length_append] at hl
  have : ("" : String).length = 0 := rfl
  omega

theorem exists_append_mid (b h x s : String) :
    ∃ t, b ++ ((h ++ x) ++ s) = b ++ (h ++ t) :=
  ⟨x ++ s, by simp [String.append_assoc]⟩

/-- C5: `check_null_columns` never fails and performs an exclusive,
exhaustive three-way split: (1) every column's null count equals the row
count — all columns reported fully null, with a column-removal action; else
(2) some column has a nonzero null count — exactly those columns listed,
each with its rounded percentage of rows null, with a missing-data action;
else (3) no column holds a null — a no-nulls finding and no action. -/
theorem c5_null_trichotomy (df : DataFrame) (ctx : Ctx) :
    ∃ ctx' : Ctx,
      check_null_columns df ctx = (df, Except.ok ctx') ∧
      (((∀ j < df.ncols, nullCountAt df j = df.nrows) ∧
        (∃ t, ctx'.body = ctx.body ++
          ("\n    5. Null Column Analysis:\n       - Fully NULL columns: " ++ t)) ∧
        (∃ a, ctx'.action_items = ctx.action_items ++ a ∧ a ≠ "")) ∨
       ((¬ ∀ j < df.ncols, nullCountAt df j = df.nrows) ∧
        (∃ j < df.ncols, 0 < nullCountAt df j) ∧
        (∃ t, ctx'.body = ctx.body ++
          ("\n    5. Null Column Analysis:\n       - Partially NULL columns: " ++ t)) ∧
        (∃ a, ctx'.action_items = ctx.action_items ++ a ∧ a ≠ "") ∧
        (∀ j < df.ncols, 0 < nullCountAt df j →
          (df.colNames.getD j "", nullCountAt df j,
            round2 ((nullCountAt df j : ℚ) / (df.nrows : ℚ) * 100)) ∈ partialNullDetails df) ∧
        (∀ d ∈ partialNullDetails df, 0 < d.2.1)) ∨
       ((¬ ∀ j < df.ncols, nullCountAt df j = df.nrows) ∧
        (∀ j < df.ncols, ∀ v ∈ colValuesAt df j, v ≠ Value.null) ∧
        ctx'.body = ctx.body ++
          "\n    5. Null Column Analysis:\n       - No NULL columns detected. All columns are fully populated.\n    " ∧
        ctx'.action_items = ctx.action_items)) := by
  by_cases h1 : (_get_column_data_types df).all (fun r => decide (r.nulls = df.nrows)) = true
  · have h1p : ∀ j < df.ncols, nullCountAt df j = df.nrows := by
      intro j hj
      have := (all_get_column_data_types df _).mp h1 j hj
      simpa [dtypeRowAt] using this
    simp only [check_null_columns, h1, if_true, ctxAppend_action_items,
      ctxAppend_body, ok_bind]
    refine ⟨_, rfl, Or.inl ⟨h1p, exists_append_mid _ _ _ _, ⟨_, rfl, ?_⟩⟩⟩
    exact string_append3_ne_empty _ _ _ (by decide)
  · have h1p : ¬ ∀ j < df.ncols, nullCountAt df j = df.nrows := by
      intro hall
      apply h1
      rw [all_get_column_data_types]
      intro j hj
      simp [dtypeRowAt, hall j hj]
    by_cases h2 : (_get_column_data_types df).any (fun r => decide (0 < r.nulls)) = true
    · have h2p : ∃ j < df.ncols, 0 < nullCountAt df j := by
        obtain ⟨j, hj, hp⟩ := (any_get_column_data_types df _).mp h2
        exact ⟨j, hj, by simpa [dtypeRowAt] using hp⟩
      have hmem : ∀ j < df.ncols, 0 < nullCountAt df j →
          (df.colNames.getD j "", nullCountAt df j,
            round2 ((nullCountAt df j : ℚ) / (df.nrows : ℚ) * 100)) ∈ partialNullDetails df := by
        intro j hj hpos
        unfold partialNullDetails
        refine List.mem_map.mpr ⟨dtypeRowAt df j, List.mem_filter.mpr ⟨?_, ?_⟩, ?_⟩
        · exact (mem_get_column_data_types df _).mpr ⟨j, hj, rfl⟩
        · simpa [dtypeRowAt] using hpos
        · simp [dtypeRowAt]
      have hpos : ∀ d ∈ partialNullDetails df, 0 < d.2.1 := by
        intro d hd
        obtain ⟨r, hr, hre⟩ := List.mem_map.mp hd
        have := (List.mem_filter.mp hr).2
        subst hre
        simpa using this
      simp only [check_null_columns, h1, if_false, h2, if_true,
        ctxAppend_action_items, ctxAppend_body, ok_bind]
      refine ⟨_, rfl, Or.inr (Or.inl
        ⟨h1p, h2p, exists_append_mid _ _ _ _, ⟨_, rfl, ?_⟩, hmem, hpos⟩)⟩
      exact string_append3_ne_empty _ _ _ (by decide)
    · have h3p : ∀ j < df.ncols, ∀ v ∈ colValuesAt df j, v ≠ Value.null := by
        intro j hj
        rw [← nullCountAt_eq_zero_iff]
        by_contra hne
        apply h2
        rw [any_get_column_data_types]
        refine ⟨j, hj, ?_⟩
        simp only [dtypeRowAt, decide_eq_true_eq]
        omega
      simp only [check_null_columns, h1, if_false, h2, if_false, ctxAppend_body]
      exact ⟨_, rfl, Or.inr (Or.inr ⟨h1p, h3p, rfl, rfl⟩)⟩

/-! ## Claim C3: report structure and numbered findings -/

/-- The string starts with the given text. -/
def strStarts (s p : String) : Prop := ∃ r, s = p ++ r

/-- The string holds the given text somewhere. -/
def containsP (s p : String) : Prop := ∃ a b, s = a ++ (p ++ b)

theorem strStarts_append_left (a r p : String) (h : strStarts a p) :
    strStarts (a ++ r) p := by
  obtain ⟨x, hx⟩ := h
  exact ⟨x ++ r, by rw [hx, String.append_assoc]⟩

theorem strStarts_of_take (s p : String) (h : s.data.take p.data.length = p.data) :
    strStarts s p := by
  have he : s = p ++ ⟨s.data.drop p.data.length⟩ := by
    apply String.ext
    show s.data = p.data ++ s.data.drop p.data.length
    calc s.data = s.data.take p.data.length ++ s.data.drop p.data.length :=
          (List.take_append_drop _ _).symm
      _ = p.data ++ s.data.drop p.data.length := by rw [h]
  exact ⟨_, he⟩

theorem containsP_of_starts (s p : String) (h : strStarts s p) : containsP s p := by
  obtain ⟨r, hr⟩ := h
  exact ⟨"", r, by simp [hr]⟩

theorem get_dataframe_shape_body (df : DataFrame) (ctx : Ctx) {df' : DataFrame}
    {ctx' : Ctx} (h : get_dataframe_shape df ctx = (df', Except.ok ctx')) :
    ∃ t, ctx'.body = ctx.body ++ t ∧ strStarts t "\n    1. Basic Table Information" := by
  rw [get_dataframe_shape, ctxAppend_body, Prod.mk.injEq, Except.ok.injEq] at h
  refine ⟨_, by rw [← h.2], ?_⟩
  refine strStarts_append_left _ _ _ ?_
  refine strStarts_append_left _ _ _ ?_
  refine strStarts_append_left _ _ _ ?_
  exact strStarts_append_left _ _ _ (strStarts_of_take _ _ (by decide))

theorem check_column_spaces_body (df : DataFrame) (ctx : Ctx) {df' : DataFrame}
    {ctx' : Ctx} (h : check_column_spaces df ctx = (df', Except.ok ctx')) :
    ∃ t, ctx'.body = ctx.body ++ t ∧ strStarts t "\n    2. Column Name Issues" := by
  rw [check_column_spaces, Prod.mk.injEq] at h
  obtain ⟨hdf, hr⟩ := h
  split at hr
  · rw [ctxAppend_body, Except.ok.injEq] at hr
    refine ⟨_, by rw [← hr], ?_⟩
    exact strStarts_of_take _ _ (by decide)
  · rw [ctxAppend_action_items, ok_bind, ctxAppend_body, Except.ok.injEq] at hr
    refine ⟨_, by rw [← hr], ?_⟩
    refine strStarts_append_left _ _ _ ?_
    exact strStarts_append_left _ _ _ (strStarts_of_take _ _ (by decide))

theorem check_duplicate_columns_body (df : DataFrame) (ctx : Ctx) {df' : DataFrame}
    {ctx' : Ctx} (h : check_duplicate_columns df ctx = (df', Except.ok ctx')) :
    ctx'.body = ctx.body ++ "   - No duplicate column names.\n" := by
  rw [check_duplicate_columns, Prod.mk.injEq] at h
  obtain ⟨hdf, hr⟩ := h
  split at hr
  · rw [ctxAppend_body, Except.ok.injEq] at hr
    rw [← hr]
  · rw [ctxAppend_action] at hr
    exact absurd hr (by simp [Bind.bind, Except.bind])

theorem get_column_data_types_body (df : DataFrame) (ctx : Ctx) {df' : DataFrame}
    {ctx' : Ctx} (h : get_column_data_types df ctx = (df', Except.ok ctx')) :
    ∃ t, ctx'.body = ctx.body ++ t ∧ strStarts t "\n    3. Data Type Overview" := by
  rw [get_column_data_types, ctxAppend_body, Prod.mk.injEq, Except.ok.injEq] at h
  refine ⟨_, by rw [← h.2], ?_⟩
  refine strStarts_append_left _ _ _ ?_
  exact strStarts_append_left _ _ _ (strStarts_of_take _ _ (by decide))

theorem except_pure {ε α : Type} (a : α) : (pure a : Except ε α) = Except.ok a := rfl

theorem error_bind {ε α β : Type} (e : ε) (f : α → Except ε β) :
    (Except.error e : Except ε α) >>= f = Except.error e := rfl

theorem containsP_of_drop_take (s p : String) (i : Nat)
    (h : (s.data.drop i).take p.data.length = p.data) : containsP s p := by
  refine ⟨⟨s.data.take i⟩, ⟨(s.data.drop i).drop p.data.length⟩, ?_⟩
  apply String.ext
  show s.data = s.data.take i ++ (p.data ++ (s.data.drop i).drop p.data.length)
  calc s.data = s.data.take i ++ s.data.drop i := (List.take_append_drop _ _).symm
    _ = s.data.take i ++
        ((s.data.drop i).take p.data.length ++ (s.data.drop i).drop p.data.length) := by
          rw [List.take_append_drop p.data.length (s.data.drop i)]
    _ = s.data.take i ++ (p.data ++ (s.data.drop i).drop p.data.length) := by rw [h]

theorem containsP_append_left (a r p : String) (h : containsP a p) :
    containsP (a ++ r) p := by
  obtain ⟨x, b, hx⟩ := h
  refine ⟨x, b ++ r, ?_⟩
  rw [hx]
  simp [String.append_assoc]

theorem find_potential_primary_key_body (df : DataFrame) (ctx : Ctx)
    {df' : DataFrame} {ctx' : Ctx}
    (h : find_potential_primary_key df ctx = (df', Except.ok ctx')) :
    ∃ t, ctx'.body = ctx.body ++ t ∧ containsP t "4. Potential Unique Identifiers" := by
  rw [find_potential_primary_key, Prod.mk.injEq] at h
  obtain ⟨hdf, hr⟩ := h
  split at hr
  · rw [ctxAppend_body, Except.ok.injEq] at hr
    refine ⟨_, by rw [← hr], ?_⟩
    exact containsP_of_drop_take _ _ 9 (by decide)
  · rename_i ic tn heq
    cases hinv : (invalidIdentifiers df ic tn).isEmpty <;>
      simp only [hinv, Bool.false_eq_true, if_true, if_false, ite_true, ite_false,
        except_pure, ctxAppend_action_items, ok_bind, ctxAppend_body,
        Except.ok.injEq] at hr <;>
      refine ⟨_, by rw [← hr], ?_⟩ <;>
      refine containsP_append_left _ _ _ ?_ <;>
      refine containsP_append_left _ _ _ ?_ <;>
      refine containsP_append_left _ _ _ ?_ <;>
      refine containsP_append_left _ _ _ ?_ <;>
      exact containsP_of_drop_take _ _ 5 (by decide)

theorem check_null_columns_body (df : DataFrame) (ctx : Ctx) {df' : DataFrame}
    {ctx' : Ctx} (h : check_null_columns df ctx = (df', Except.ok ctx')) :
    ∃ t, ctx'.body = ctx.body ++ t ∧ strStarts t "\n    5. Null Column Analysis" := by
  rw [check_null_columns, Prod.mk.injEq] at h
  obtain ⟨hdf, hr⟩ := h
  split at hr
  · simp only [ctxAppend_action_items, ok_bind, ctxAppend_body, Except.ok.injEq] at hr
    refine ⟨_, by rw [← hr], ?_⟩
    refine strStarts_append_left _ _ _ ?_
    exact strStarts_append_left _ _ _ (strStarts_of_take _ _ (by decide))
  · split at hr
    · simp only [ctxAppend_action_items, ok_bind, ctxAppend_body, Except.ok.injEq] at hr
      refine ⟨_, by rw [← hr], ?_⟩
      refine strStarts_append_left _ _ _ ?_
      exact strStarts_append_left _ _ _ (strStarts_of_take _ _ (by decide))
    · rw [ctxAppend_body, Except.ok.injEq] at hr
      refine ⟨_, by rw [← hr], ?_⟩
      exact strStarts_of_take _ _ (by decide)

theorem check_fully_duplicate_rows_body (df : DataFrame) (ctx : Ctx)
    {df' : DataFrame} {ctx' : Ctx}
    (h : check_fully_duplicate_rows df ctx = (df', Except.ok ctx')) :
    ∃ t, ctx'.body = ctx.body ++ t ∧ strStarts t "\n    6. Duplicate Row Analysis" := by
  rw [check_fully_duplicate_rows, Prod.mk.injEq] at h
  obtain ⟨hdf, hr⟩ := h
  split at hr
  · rw [ctxAppend_body, Except.ok.injEq] at hr
    refine ⟨_, by rw [← hr], ?_⟩
    exact strStarts_of_take _ _ (by decide)
  · simp only [ctxAppend_action_items, ok_bind, ctxAppend_body, Except.ok.injEq] at hr
    refine ⟨_, by rw [← hr], ?_⟩
    refine strStarts_append_left _ _ _ ?_
    refine strStarts_append_left _ _ _ ?_
    refine strStarts_append_left _ _ _ ?_
    exact strStarts_append_left _ _ _ (strStarts_of_take _ _ (by decide))

theorem check_mixed_data_types_body (pfFloat : String → Option ℚ) (df : DataFrame)
    (ctx : Ctx) {df' : DataFrame} {ctx' : Ctx}
    (h : check_mixed_data_types pfFloat df ctx = (df', Except.ok ctx')) :
    ∃ t, ctx'.body = ctx.body ++ t ∧ strStarts t "\n    7. Mixed Data Type Check" := by
  rw [check_mixed_data_types, Prod.mk.injEq] at h
  obtain ⟨hdf, hr⟩ := h
  cases hms : mixedScan pfFloat df (List.range df.ncols) with
  | error e =>
    rw [hms, error_bind] at hr
    exact absurd hr (by simp)
  | ok mixed =>
    rw [hms, ok_bind] at hr
    split at hr
    · rw [ctxAppend_body, Except.ok.injEq] at hr
      refine ⟨_, by rw [← hr], ?_⟩
      exact strStarts_of_take _ _ (by decide)
    · simp only [ctxAppend_action_items, ok_bind, ctxAppend_body, Except.ok.injEq] at hr
      refine ⟨_, by rw [← hr], ?_⟩
      refine strStarts_append_left _ _ _ ?_
      refine strStarts_append_left _ _ _ ?_
      refine strStarts_append_left _ _ _ ?_
      exact strStarts_append_left _ _ _ (strStarts_of_take _ _ (by decide))

theorem check_date_validity_body (pfDate : String → Option Int) (now : Int)
    (df : DataFrame) (ctx : Ctx) {df' : DataFrame} {ctx' : Ctx}
    (h : check_date_validity pfDate now df ctx = (df', Except.ok ctx')) :
    ∃ t, ctx'.body = ctx.body ++ t ∧ strStarts t "\n    8. Date Validity Check" := by
  rw [check_date_validity] at h
  split at h
  · rw [Prod.mk.injEq, ctxAppend_body, Except.ok.injEq] at h
    refine ⟨_, by rw [← h.2], ?_⟩
    exact strStarts_of_take _ _ (by decide)
  · split at h
    · rw [Prod.mk.injEq] at h
      exact absurd h.2 (by simp)
    · split at h
      · rw [Prod.mk.injEq, ctxAppend_body, Except.ok.injEq] at h
        refine ⟨_, by rw [← h.2], ?_⟩
        exact strStarts_of_take _ _ (by decide)
      · simp only [Prod.mk.injEq, ctxAppend_action_items, ok_bind, ctxAppend_body,
          Except.ok.injEq] at h
        refine ⟨_, by rw [← h.2], ?_⟩
        refine strStarts_append_left _ _ _ ?_
        exact strStarts_append_left _ _ _ (strStarts_of_take _ _ (by decide))

theorem check_transaction_date_order_body (df : DataFrame) (ctx : Ctx)
    {df' : DataFrame} {ctx' : Ctx}
    (h : check_transaction_date_order df ctx = (df', Except.ok ctx')) :
    ∃ t, ctx'.body = ctx.body ++ t ∧ strStarts t "\n    9. Date Order Check" := by
  rw [check_transaction_date_order, Prod.mk.injEq] at h
  obtain ⟨hdf, hr⟩ := h
  split at hr
  · simp only [ne_eq] at hr
    split at hr
    · simp only [ctxAppend_action_items, ok_bind, ctxAppend_body, Except.ok.injEq] at hr
      refine ⟨_, by rw [← hr], ?_⟩
      refine strStarts_append_left _ _ _ ?_
      exact strStarts_append_left _ _ _ (strStarts_of_take _ _ (by decide))
    · rw [ctxAppend_body, Except.ok.injEq] at hr
      refine ⟨_, by rw [← hr], ?_⟩
      exact strStarts_of_take _ _ (by decide)
  · rw [ctxAppend_body, Except.ok.injEq] at hr
    refine ⟨_, by rw [← hr], ?_⟩
    exact strStarts_of_take _ _ (by decide)

theorem check_customer_date_order_body (df : DataFrame) (ctx : Ctx)
    {df' : DataFrame} {ctx' : Ctx}
    (h : check_customer_date_order df ctx = (df', Except.ok ctx')) :
    ∃ t, ctx'.body = ctx.body ++ t ∧ strStarts t "\n    10. Date Order Check" := by
  rw [check_customer_date_order, Prod.mk.injEq] at h
  obtain ⟨hdf, hr⟩ := h
  split at hr
  · simp only [ne_eq] at hr
    split at hr
    · simp only [ctxAppend_action_items, ok_bind, ctxAppend_body, Except.ok.injEq] at hr
      refine ⟨_, by rw [← hr], ?_⟩
      refine strStarts_append_left _ _ _ ?_
      exact strStarts_append_left _ _ _ (strStarts_of_take _ _ (by decide))
    · rw [ctxAppend_body, Except.ok.injEq] at hr
      refine ⟨_, by rw [← hr], ?_⟩
      exact strStarts_of_take _ _ (by decide)
  · rw [ctxAppend_body, Except.ok.injEq] at hr
    refine ⟨_, by rw [← hr], ?_⟩
    exact strStarts_of_take _ _ (by decide)

theorem appendIf_body (ctx : Ctx) (c : Bool) (s : String) :
    appendIf ctx c "body" s =
      Except.ok { ctx with body := ctx.body ++ (if c then s else "") } := by
  cases c <;> simp [appendIf, ctxAppend_body, except_pure]

theorem appendIf_action_items (ctx : Ctx) (c : Bool) (s : String) :
    appendIf ctx c "action_items" s =
      Except.ok { ctx with action_items := ctx.action_items ++ (if c then s else "") } := by
  cases c <;> simp [appendIf, ctxAppend_action_items, except_pure]

theorem check_data_consistency_body (df : DataFrame) (ctx : Ctx)
    {df' : DataFrame} {ctx' : Ctx}
    (h : check_data_consistency df ctx = (df', Except.ok ctx')) :
    ∃ t, ctx'.body = ctx.body ++ t ∧ strStarts t "\n    11. Data Consistency Check" := by
  rw [check_data_consistency, Prod.mk.injEq] at h
  obtain ⟨hdf, hr⟩ := h
  split at hr
  · simp only [ctxAppend_body, appendIf_body, appendIf_action_items, ok_bind,
      Except.ok.injEq] at hr
    refine ⟨"\n    11. Data Consistency Check (check if STATE, LANGUAGE, and GENDER are consistent):\n    " ++
      ((if (!(invalidValuesOf df "STATE" valid_states).isEmpty) = true then
          "     - Invalid states detected: " ++
            String.intercalate ", " (invalidValuesOf df "STATE" valid_states) ++ "\n"
        else "") ++
       ((if (!(invalidValuesOf df "LANGUAGE" valid_languages).isEmpty) = true then
           "         - Invalid languages detected: " ++
             String.intercalate ", " (invalidValuesOf df "LANGUAGE" valid_languages) ++ "\n"
         else "") ++
        (if (!(invalidValuesOf df "GENDER" valid_genders).isEmpty) = true then
           "         - Invalid gender values detected: " ++
             String.intercalate ", " (invalidValuesOf df "GENDER" valid_genders) ++ "\n"
         else ""))), ?_, ?_⟩
    · rw [← hr]
      simp only [String.append_assoc]
    · exact strStarts_append_left _ _ _ (strStarts_of_take _ _ (by decide))
  · rw [ctxAppend_body, Except.ok.injEq] at hr
    refine ⟨_, by rw [← hr], ?_⟩
    exact strStarts_of_take _ _ (by decide)

theorem describe_data_body (df : DataFrame) (ctx : Ctx) {df' : DataFrame}
    {ctx' : Ctx} (h : describe_data df ctx = (df', Except.ok ctx')) :
    ∃ t, ctx'.body = ctx.body ++ t ∧ strStarts t "\n    12. Summary Statistics" := by
  rw [describe_data, Prod.mk.injEq] at h
  obtain ⟨hdf, hr⟩ := h
  split at hr
  · rw [ctxAppend_body, Except.ok.injEq] at hr
    refine ⟨_, by rw [← hr], ?_⟩
    exact strStarts_of_take _ _ (by decide)
  · rw [ctxAppend_body, Except.ok.injEq] at hr
    refine ⟨_, by rw [← hr], ?_⟩
    refine strStarts_append_left _ _ _ ?_
    exact strStarts_append_left _ _ _ (strStarts_of_take _ _ (by decide))

theorem runSteps_cons_ok {step : DataFrame → Ctx → DataFrame × Except String Ctx}
    {steps : List (DataFrame → Ctx → DataFrame × Except String Ctx)}
    {df df1 : DataFrame} {ctx ctx1 : Ctx}
    (hstep : step df ctx = (df1, Except.ok ctx1)) :
    runSteps (step :: steps) df ctx = runSteps steps df1 ctx1 := by
  rw [runSteps, hstep]

theorem runSteps_cons_error {step : DataFrame → Ctx → DataFrame × Except String Ctx}
    {steps : List (DataFrame → Ctx → DataFrame × Except String Ctx)}
    {df df1 : DataFrame} {ctx : Ctx} {e : String}
    (hstep : step df ctx = (df1, Except.error e)) :
    runSteps (step :: steps) df ctx = (df1, Except.error e) := by
  rw [runSteps, hstep]

/-- C3 (amended): a completed run returns the body followed by the action
items, the body being the seed header plus the thirteen checks' contributions
in order; twelve of them open numbered sections 1-12 while the
duplicate-columns check appends an unnumbered bullet, so the body carries
twelve numbered findings, not thirteen. -/
theorem c3_report_structure (pfFloat : String → Option ℚ) (pfDate : String → Option Int)
    (now : Int) (df : DataFrame) (s : String)
    (h : (print_summary pfFloat pfDate now df).2 = Except.ok s) :
    ∃ bodyF act u1 u2 u3 u4 u5 u6 u7 u8 u9 u10 u11 u12 u13 : String,
      s = "\n    " ++ bodyF ++ "\n    \n\n    " ++ act ++ "\n    " ∧
      bodyF = (initialCtx df).body ++ u1 ++ u2 ++ u3 ++ u4 ++ u5 ++ u6 ++ u7 ++ u8 ++
        u9 ++ u10 ++ u11 ++ u12 ++ u13 ∧
      strStarts u1 "\n    1. Basic Table Information" ∧
      strStarts u2 "\n    2. Column Name Issues" ∧
      u3 = "   - No duplicate column names.\n" ∧
      strStarts u4 "\n    3. Data Type Overview" ∧
      containsP u5 "4. Potential Unique Identifiers" ∧
      strStarts u6 "\n    5. Null Column Analysis" ∧
      strStarts u7 "\n    6. Duplicate Row Analysis" ∧
      strStarts u8 "\n    7. Mixed Data Type Check" ∧
      strStarts u9 "\n    8. Date Validity Check" ∧
      strStarts u10 "\n    9. Date Order Check" ∧
      strStarts u11 "\n    10. Date Order Check" ∧
      strStarts u12 "\n    11. Data Consistency Check" ∧
      strStarts u13 "\n    12. Summary Statistics" := by
  rw [print_summary] at h
  rcases hrun : runSteps (TABLE_CHECK_STEPS pfFloat pfDate now) df (initialCtx df)
    with ⟨dfF, res⟩
  rw [hrun] at h
  cases res with
  | error e => simp at h
  | ok ctxF =>
    simp only [Except.ok.injEq] at h
    rw [TABLE_CHECK_STEPS] at hrun
    rcases h1 : get_dataframe_shape df (initialCtx df) with ⟨df1, r1⟩
    cases r1 with
    | error e => rw [runSteps_cons_error h1] at hrun; exact absurd hrun (by simp)
    | ok ctx1 =>
    rw [runSteps_cons_ok h1] at hrun
    rcases h2 : check_column_spaces df1 ctx1 with ⟨df2, r2⟩
    cases r2 with
    | error e => rw [runSteps_cons_error h2] at hrun; exact absurd hrun (by simp)
    | ok ctx2 =>
    rw [runSteps_cons_ok h2] at hrun
    rcases h3 : check_duplicate_columns df2 ctx2 with ⟨df3, r3⟩
    cases r3 with
    | error e => rw [runSteps_cons_error h3] at hrun; exact absurd hrun (by simp)
    | ok ctx3 =>
    rw [runSteps_cons_ok h3] at hrun
    rcases h4 : get_column_data_types df3 ctx3 with ⟨df4, r4⟩
    cases r4 with
    | error e => rw [runSteps_cons_error h4] at hrun; exact absurd hrun (by simp)
    | ok ctx4 =>
    rw [runSteps_cons_ok h4] at hrun
    rcases h5 : find_potential_primary_key df4 ctx4 with ⟨df5, r5⟩
    cases r5 with
    | error e => rw [runSteps_cons_error h5] at hrun; exact absurd hrun (by simp)
    | ok ctx5 =>
    rw [runSteps_cons_ok h5] at hrun
    rcases h6 : check_null_columns df5 ctx5 with ⟨df6, r6⟩
    cases r6 with
    | error e => rw [runSteps_cons_error h6] at hrun; exact absurd hrun (by simp)
    | ok ctx6 =>
    rw [runSteps_cons_ok h6] at hrun
    rcases h7 : check_fully_duplicate_rows df6 ctx6 with ⟨df7, r7⟩
    cases r7 with
    | error e => rw [runSteps_cons_error h7] at hrun; exact absurd hrun (by simp)
    | ok ctx7 =>
    rw [runSteps_cons_ok h7] at hrun
    rcases h8 : check_mixed_data_types pfFloat df7 ctx7 with ⟨df8, r8⟩
    cases r8 with
    | error e => rw [runSteps_cons_error h8] at hrun; exact absurd hrun (by simp)
    | ok ctx8 =>
    rw [runSteps_cons_ok h8] at hrun
    rcases h9 : check_date_validity pfDate now df8 ctx8 with ⟨df9, r9⟩
    cases r9 with
    | error e => rw [runSteps_cons_error h9] at hrun; exact absurd hrun (by simp)
    | ok ctx9 =>
    rw [runSteps_cons_ok h9] at hrun
    rcases h10 : check_transaction_date_order df9 ctx9 with ⟨df10, r10⟩
    cases r10 with
    | error e => rw [runSteps_cons_error h10] at hrun; exact absurd hrun (by simp)
    | ok ctx10 =>
    rw [runSteps_cons_ok h10] at hrun
    rcases h11 : check_customer_date_order df10 ctx10 with ⟨df11, r11⟩
    cases r11 with
    | error e => rw [runSteps_cons_error h11] at hrun; exact absurd hrun (by simp)
    | ok ctx11 =>
    rw [runSteps_cons_ok h11] at hrun
    rcases h12 : check_data_consistency df11 ctx11 with ⟨df12, r12⟩
    cases r12 with
    | error e => rw [runSteps_cons_error h12] at hrun; exact absurd hrun (by simp)
    | ok ctx12 =>
    rw [runSteps_cons_ok h12] at hrun
    rcases h13 : describe_data df12 ctx12 with ⟨df13, r13⟩
    cases r13 with
    | error e => rw [runSteps_cons_error h13] at hrun; exact absurd hrun (by simp)
    | ok ctx13 =>
    rw [runSteps_cons_ok h13, runSteps] at hrun
    have hctx : ctx13 = ctxF := by
      have := congrArg Prod.snd hrun
      simpa using this
    obtain ⟨t1, hb1, hs1⟩ := get_dataframe_shape_body df (initialCtx df) h1
    obtain ⟨t2, hb2, hs2⟩ := check_column_spaces_body df1 ctx1 h2
    have hb3 := check_duplicate_columns_body df2 ctx2 h3
    obtain ⟨t4, hb4, hs4⟩ := get_column_data_types_body df3 ctx3 h4
    obtain ⟨t5, hb5, hs5⟩ := find_potential_primary_key_body df4 ctx4 h5
    obtain ⟨t6, hb6, hs6⟩ := check_null_columns_body df5 ctx5 h6
    obtain ⟨t7, hb7, hs7⟩ := check_fully_duplicate_rows_body df6 ctx6 h7
    obtain ⟨t8, hb8, hs8⟩ := check_mixed_data_types_body pfFloat df7 ctx7 h8
    obtain ⟨t9, hb9, hs9⟩ := check_date_validity_body pfDate now df8 ctx8 h9
    obtain ⟨t10, hb10, hs10⟩ := check_transaction_date_order_body df9 ctx9 h10
    obtain ⟨t11, hb11, hs11⟩ := check_customer_date_order_body df10 ctx10 h11
    obtain ⟨t12, hb12, hs12⟩ := check_data_consistency_body df11 ctx11 h12
    obtain ⟨t13, hb13, hs13⟩ := describe_data_body df12 ctx12 h13
    refine ⟨ctxF.body, ctxF.action_items, t1, t2, _, t4, t5, t6, t7, t8, t9, t10,
      t11, t12, t13, h.symm, ?_, hs1, hs2, rfl, hs4, hs5, hs6, hs7, hs8, hs9,
      hs10, hs11, hs12, hs13⟩
    rw [← hctx, hb13, hb12, hb11, hb10, hb9, hb8, hb7, hb6, hb5, hb4, hb3, hb2, hb1]

/-- A one-column table on which the whole pipeline completes. -/
def c3ReportDf : DataFrame :=
  { dfName := "t", colNames := ["ID"], rows := [[Value.num 1]] }

/-- The report the pipeline returns for `c3ReportDf`. -/
def c3Report : String :=
  match (print_summary (fun _ => none) (fun _ => none) 0 c3ReportDf).2 with
  | Except.ok s => s
  | Except.error e => e

/-- Whether the pattern starts the list. -/
def listTakeEq (p l : List Char) : Bool := decide (l.take p.length = p)

/-- How many positions of the list start the pattern. -/
def countOccs (p : List Char) : List Char → Nat
  | [] => 0
  | c :: rest => (if listTakeEq p (c :: rest) then 1 else 0) + countOccs p rest

/-- Occurrence count of a pattern inside a string. -/
def strCountOccs (s pat : String) : Nat := countOccs pat.data s.data

/-- The whole body contribution of the duplicate-columns check on a clean
table. -/
def unnumberedLine : String := "   - No duplicate column names.\n"

/-- C3 counterexample: the pipeline runs thirteen checks, but on a concrete
table the duplicate-columns check's entire body contribution is an
unnumbered bullet holding no section number at all, so the body cannot carry
one numbered section per check — it has twelve numbered findings, not
thirteen. -/
theorem c3_counterexample :
    check_duplicate_columns c3ReportDf (initialCtx c3ReportDf) =
      (c3ReportDf, Except.ok { initialCtx c3ReportDf with
        body := (initialCtx c3ReportDf).body ++ unnumberedLine }) ∧
    (∀ k < 40, strCountOccs unnumberedLine (toString k ++ ".") = 0) ∧
    (TABLE_CHECK_STEPS (fun _ => none) (fun _ => none) 0).length = 13 :=
  ⟨by decide, by decide, by decide⟩

/-- Witness for C3 at a concrete table: the returned report decomposes into
body then action items, with the thirteen contributions and their section
headers. -/
theorem c3_witness :
    ∃ bodyF act u1 u2 u3 u4 u5 u6 u7 u8 u9 u10 u11 u12 u13 : String,
      c3Report = "\n    " ++ bodyF ++ "\n    \n\n    " ++ act ++ "\n    " ∧
      bodyF = (initialCtx c3ReportDf).body ++ u1 ++ u2 ++ u3 ++ u4 ++ u5 ++ u6 ++
        u7 ++ u8 ++ u9 ++ u10 ++ u11 ++ u12 ++ u13 ∧
      strStarts u1 "\n    1. Basic Table Information" ∧
      strStarts u2 "\n    2. Column Name Issues" ∧
      u3 = "   - No duplicate column names.\n" ∧
      strStarts u4 "\n    3. Data Type Overview" ∧
      containsP u5 "4. Potential Unique Identifiers" ∧
      strStarts u6 "\n    5. Null Column Analysis" ∧
      strStarts u7 "\n    6. Duplicate Row Analysis" ∧
      strStarts u8 "\n    7. Mixed Data Type Check" ∧
      strStarts u9 "\n    8. Date Validity Check" ∧
      strStarts u10 "\n    9. Date Order Check" ∧
      strStarts u11 "\n    10. Date Order Check" ∧
      strStarts u12 "\n    11. Data Consistency Check" ∧
      strStarts u13 "\n    12. Summary Statistics" :=
  c3_report_structure (fun _ => none) (fun _ => none) 0 c3ReportDf c3Report rfl
